import Mathlib

/-!
Verification of the biorad model-comparison core against its specification.

Scores are modelled as rationals (`ℚ`); machine floats in the source carry
exact decimal constants (0.368, 0.632) and the claims under check are about
branch structure and exact algebra, not rounding.  Fallible Python steps are
modelled with `Except`, the caught-exception result with `Option`.
-/

namespace Biorad

/-- Embedding of `point632plus` (src/backend/utils.py, lines 124-129):
`0.368 * train + 0.632 * test` plus the bias-correction term
`(test_marked - train) * (0.368 * 0.632 * r) / (1 - 0.368 * r)`. -/
def point632plus (train_score test_score r_marked test_score_marked : ℚ) : ℚ :=
  let point632 := 0.368 * train_score + 0.632 * test_score
  let frac := (0.368 * 0.632 * r_marked) / (1 - 0.368 * r_marked)
  point632 + (test_score_marked - train_score) * frac

/-- Embedding of `relative_overfit_rate` (src/backend/utils.py, lines 133-138):
the guarded relative overfit rate of the .632+ method. -/
def relative_overfit_rate (train_score test_score gamma : ℚ) : ℚ :=
  if train_score < test_score ∧ train_score < gamma then
    (test_score - train_score) / (gamma - train_score)
  else 0

/-- Mean of a list of rationals, as `np.sum(y) / np.size(y)`. -/
def listMean (y : List ℚ) : ℚ := y.sum / (y.length : ℚ)

/-- Embedding of `no_info_rate` (src/backend/utils.py, lines 141-156):
`p*(1-q) + (1-p)*q` with `p = mean(y_true)`, `q = mean(y_pred)`. -/
def no_info_rate (y_true y_pred : List ℚ) : ℚ :=
  let p_one := y_true.sum / (y_true.length : ℚ)
  let q_one := y_pred.sum / (y_pred.length : ℚ)
  p_one * (1 - q_one) + (1 - p_one) * q_one

/-- Embedding of `point632plus_score` (src/backend/utils.py, lines 159-170). -/
def point632plus_score (y_true y_pred : List ℚ) (train_score test_score : ℚ) : ℚ :=
  let gamma := no_info_rate y_true y_pred
  let test_score_marked := min test_score gamma
  let r_marked := relative_overfit_rate train_score test_score gamma
  point632plus train_score test_score r_marked test_score_marked

/-- Abstract fallible collaborators of `scale_fit_predict632`
(src/backend/utils.py, lines 173-213): the standardization transform
(`train_test_z_scores`), model fitting, prediction and scoring, each of
which may raise in Python and is therefore `Except`-valued here. -/
structure FitEnv (Dat Fitted : Type) where
  z_scores : Dat → Dat → Except String (Dat × Dat)
  fit : Dat → List ℚ → Except String Fitted
  predict : Fitted → Dat → Except String (List ℚ)
  score : List ℚ → List ℚ → Except String ℚ

/-- The body of the `try` block of `scale_fit_predict632`
(src/backend/utils.py, lines 190-209), sequenced exactly as in the source:
standardize, fit, predict/score on train, predict/score on test, then the
two `point632plus_score` calls. -/
def fitPipeline {Dat Fitted : Type} (env : FitEnv Dat Fitted)
    (X_train X_test : Dat) (y_train y_test : List ℚ) : Except String (ℚ × ℚ) :=
  match env.z_scores X_train X_test with
  | Except.error e => Except.error e
  | Except.ok (X_train_std, X_test_std) =>
    match env.fit X_train_std y_train with
    | Except.error e => Except.error e
    | Except.ok fitted =>
      match env.predict fitted X_train_std with
      | Except.error e => Except.error e
      | Except.ok y_train_pred =>
        match env.score y_train y_train_pred with
        | Except.error e => Except.error e
        | Except.ok train_score =>
          match env.predict fitted X_test_std with
          | Except.error e => Except.error e
          | Except.ok y_test_pred =>
            match env.score y_test y_test_pred with
            | Except.error e => Except.error e
            | Except.ok test_score =>
              Except.ok
                (point632plus_score y_train y_train_pred train_score test_score,
                 point632plus_score y_test y_test_pred train_score test_score)

/-- Embedding of `scale_fit_predict632` (src/backend/utils.py, lines 173-213):
run the pipeline; a raised exception is caught by the bare `except` and
converted into the pair `(None, None)`. -/
def scale_fit_predict632 {Dat Fitted : Type} (env : FitEnv Dat Fitted)
    (X_train X_test : Dat) (y_train y_test : List ℚ) : Option ℚ × Option ℚ :=
  match fitPipeline env X_train X_test y_train y_test with
  | Except.ok p => (some p.1, some p.2)
  | Except.error _ => (none, none)

/-- A collaborator whose standardization step always raises. -/
def envRaising : FitEnv Unit Unit where
  z_scores := fun _ _ => Except.error "convergence failure"
  fit := fun _ _ => Except.ok ()
  predict := fun _ _ => Except.ok [0, 1]
  score := fun _ _ => Except.ok 1

/-- A collaborator in which every step succeeds, predicting `[0, 1]` with
score `1`. -/
def envSucceeding : FitEnv Unit Unit where
  z_scores := fun _ _ => Except.ok ((), ())
  fit := fun _ _ => Except.ok ()
  predict := fun _ _ => Except.ok [0, 1]
  score := fun _ _ => Except.ok 1

/-- Embedding of `BootstrapOutOfBag.split` (src/backend/utils.py, lines
79-102) for one experiment. Each iteration draws `train_idx` from the seeded
generator — `rand_gen.choice(np.arange(nrows), size=nrows, replace=True)`,
modelled by the list `draws` of generator outputs — and forms
`test_idx = set(range(nrows)) - set(train_idx)`. -/
def bootstrapOOBsplit (nrows : ℕ) (draws : List (List ℕ)) :
    List (List ℕ × Finset ℕ) :=
  draws.map (fun train_idx => (train_idx, Finset.range nrows \ train_idx.toFinset))

/-- Flattened-argmin accumulator: index of the first minimum of the list,
continuing from current best `best` at index `best_idx`, next index `i`. -/
def argminAux : List ℚ → ℚ → ℕ → ℕ → ℕ
  | [], _, best_idx, _ => best_idx
  | x :: xs, best, best_idx, i =>
    if x < best then argminAux xs x i (i + 1) else argminAux xs best best_idx (i + 1)

/-- `np.argmin` on a flattened matrix: index of the first minimum. Applied by
`bbc_cv` to the whole resampled two-dimensional matrix, this is the flattened
position of the minimum, not a configuration column index. -/
def npArgmin : List ℚ → ℕ
  | [] => 0
  | x :: xs => argminAux xs x 0 1

/-- Embedding of `bbc_cv` (src/model_comparison/model_selection.py, lines
25-60). Each iteration draws row indices with
`np.random.choice(nrows, size=nrows, replace=True)` from the module-level
global generator — modelled by the stream `global_draws`, one entry per
iteration — while the `random_state` argument is never consulted. The loop
accumulates `np.argmin(scores[idxs, :])`, the flattened argmin of the
resampled matrix, and the result is that sum divided by `n_iter`. -/
def bbc_cv (scores : List (List ℚ)) (n_iter : ℕ) (random_state : Option ℕ)
    (global_draws : List (List ℕ)) : ℚ :=
  let picks := global_draws.take n_iter
  (picks.map
    (fun idxs => (npArgmin ((idxs.map (fun i => scores.getD i [])).flatten) : ℚ))).sum
    / (n_iter : ℚ)

/-- Mean loss of configuration column `j` of a prediction matrix: the value
the BBC-CV estimate should equal when column `j` strictly dominates. -/
def colLoss (scores : List (List ℚ)) (j : ℕ) : ℚ :=
  (scores.map (fun row => row.getD j 0)).sum / (scores.length : ℚ)

/-- The persistence collaborator of `nested_cross_validation_smac`
(src/experiments/comparison_schemes.py): `os.path.isfile` and
`ioutil.read_prelim_result`, over records of type `Rec`. -/
structure PersistStore (Rec : Type) where
  isfile : String → Bool
  read_prelim_result : String → Rec

/-- The `path_case_file` computed by `nested_cross_validation_smac`
(src/experiments/comparison_schemes.py, lines 66-71): the empty string when
`path_tmp_results` is `None`, otherwise
`os.path.join(path_tmp_results, f'experiment_{random_state}_{experiment_id}')`. -/
def case_file_path (path_tmp_results : Option String) (random_state : ℕ)
    (experiment_id : String) : String :=
  match path_tmp_results with
  | none => ""
  | some p => p ++ "/experiment_" ++ toString random_state ++ "_" ++ experiment_id

/-- Embedding of the resume logic of `nested_cross_validation_smac`
(src/experiments/comparison_schemes.py, lines 66-151): if the case file
exists, reload the persisted record and run no fold; otherwise run the
`cv` outer folds (abstracted by `run_folds`, which receives the fold count).
The second component counts the outer folds executed. -/
def nested_cross_validation_smac {Rec : Type} (store : PersistStore Rec)
    (path_tmp_results : Option String) (random_state : ℕ) (experiment_id : String)
    (cv : ℕ) (run_folds : ℕ → Rec) : Rec × ℕ :=
  let path_case_file := case_file_path path_tmp_results random_state experiment_id
  if store.isfile path_case_file then
    (store.read_prelim_result path_case_file, 0)
  else
    (run_folds cv, cv)

/-- A numpy-flavoured value passed to `check_support`: either a numpy
`ndarray` of a given shape, or a plain Python sequence (whose `np.ndim` is
the length of the shape `np.asarray` would give it). -/
inductive SupportInput where
  | ndarray (shape : List ℕ) (data : List ℤ)
  | pylist (shape : List ℕ) (data : List ℤ)

/-- `np.ndim` of a `SupportInput`. -/
def np_ndim : SupportInput → ℕ
  | SupportInput.ndarray shape _ => shape.length
  | SupportInput.pylist shape _ => shape.length

/-- `np.squeeze`: drop the singleton axes; the result is an `ndarray`. -/
def np_squeeze : SupportInput → SupportInput
  | SupportInput.ndarray shape d => SupportInput.ndarray (shape.filter (fun a => a != 1)) d
  | SupportInput.pylist shape d => SupportInput.ndarray (shape.filter (fun a => a != 1)) d

/-- Whether the value is a numpy `ndarray` (`isinstance(support, np.ndarray)`). -/
def isNdarray : SupportInput → Bool
  | SupportInput.ndarray _ _ => true
  | SupportInput.pylist _ _ => false

/-- Embedding of `check_support` (src/backend/utils.py, lines 105-120): if
`np.ndim(support) > 1` return `np.squeeze(support)`; else if the input is not
an `ndarray` return `np.array(support, dtype=int)`; otherwise fall off the
end of the function, returning `None`. -/
def check_support (support : SupportInput) : Option SupportInput :=
  if 1 < np_ndim support then some (np_squeeze support)
  else
    match support with
    | SupportInput.ndarray _ _ => none
    | SupportInput.pylist shape d => some (SupportInput.ndarray shape d)

/-- A concrete persistence collaborator holding one record, `99`, at the case
file for seed `7` and experiment id `x` under directory `tmp`. -/
def storeSeven : PersistStore ℕ where
  isfile := fun s => s == "tmp/experiment_7_x"
  read_prelim_result := fun _ => 99

end Biorad

namespace Biorad

/-- C7: with overfit rate `r = 0` the bias-correction term of `point632plus`
vanishes and the result is exactly `0.368*train + 0.632*test`. -/
theorem point632plus_r_zero (train_score test_score test_score_marked : ℚ) :
    point632plus train_score test_score 0 test_score_marked =
      0.368 * train_score + 0.632 * test_score := by
  simp [point632plus]

/-- C5: `relative_overfit_rate` returns `(test - train) / (gamma - train)` when
`test > train` and `gamma > train` (and then the denominator is strictly
positive, so no division by zero or by a negative number occurs), and returns
exactly `0` whenever `test <= train` or `gamma <= train`. -/
theorem relative_overfit_rate_spec (train_score test_score gamma : ℚ) :
    (train_score < test_score → train_score < gamma →
      relative_overfit_rate train_score test_score gamma =
        (test_score - train_score) / (gamma - train_score) ∧
      0 < gamma - train_score) ∧
    (test_score ≤ train_score ∨ gamma ≤ train_score →
      relative_overfit_rate train_score test_score gamma = 0) := by
  constructor
  · intro h1 h2
    refine ⟨?_, by linarith⟩
    simp [relative_overfit_rate, h1, h2]
  · intro h
    have hn : ¬ (train_score < test_score ∧ train_score < gamma) := by
      rcases h with h | h
      · exact fun hc => absurd hc.1 (not_lt.mpr h)
      · exact fun hc => absurd hc.2 (not_lt.mpr h)
    simp [relative_overfit_rate, hn]

/-- C5 witness: both branches of `relative_overfit_rate_spec` at concrete
inputs `(0, 1, 2)` and `(1, 0, 2)`. -/
theorem relative_overfit_rate_spec_witness :
    (relative_overfit_rate 0 1 2 = (1 - 0) / (2 - 0) ∧ (0:ℚ) < 2 - 0) ∧
    relative_overfit_rate 1 0 2 = 0 :=
  ⟨(relative_overfit_rate_spec 0 1 2).1 (by norm_num) (by norm_num),
   (relative_overfit_rate_spec 1 0 2).2 (Or.inl (by norm_num))⟩

/-- C6: for binary vectors of equal positive length, `no_info_rate` equals
`p*(1-q) + (1-p)*q` with `p = mean(y_true)`, `q = mean(y_pred)`; in
particular `no_info_rate y y = 2*p*(1-p)`, and `y = [0,0,1,1]` gives `1/2`. -/
theorem no_info_rate_spec (y_true y_pred : List ℚ)
    (hlen : y_true.length = y_pred.length) (hpos : 0 < y_true.length)
    (hbin_true : ∀ x ∈ y_true, x = 0 ∨ x = 1)
    (hbin_pred : ∀ x ∈ y_pred, x = 0 ∨ x = 1) :
    no_info_rate y_true y_pred =
      listMean y_true * (1 - listMean y_pred) +
        (1 - listMean y_true) * listMean y_pred ∧
    no_info_rate y_true y_true =
      2 * listMean y_true * (1 - listMean y_true) ∧
    no_info_rate [0, 0, 1, 1] [0, 0, 1, 1] = 1 / 2 := by
  refine ⟨rfl, ?_, by norm_num [no_info_rate]⟩
  simp only [no_info_rate, listMean]
  ring

/-- C6 witness: `no_info_rate_spec` at `y_true = y_pred = [0, 1]`. -/
theorem no_info_rate_spec_witness :
    no_info_rate [(0:ℚ), 1] [0, 1] =
      listMean [(0:ℚ), 1] * (1 - listMean [(0:ℚ), 1]) +
        (1 - listMean [(0:ℚ), 1]) * listMean [(0:ℚ), 1] ∧
    no_info_rate [(0:ℚ), 1] [(0:ℚ), 1] =
      2 * listMean [(0:ℚ), 1] * (1 - listMean [(0:ℚ), 1]) ∧
    no_info_rate [0, 0, 1, 1] [0, 0, 1, 1] = 1 / 2 :=
  no_info_rate_spec [(0:ℚ), 1] [0, 1] rfl (by norm_num)
    (by intro x hx; simpa using hx) (by intro x hx; simpa using hx)

/-- C3: `scale_fit_predict632` never propagates an exception: if any step of
the standardize/fit/predict/score pipeline raises, the result is
`(none, none)`; if no step raises, the result is the pair of
.632+-corrected train and test scores computed by the pipeline. -/
theorem scale_fit_predict632_catches {Dat Fitted : Type} (env : FitEnv Dat Fitted)
    (X_train X_test : Dat) (y_train y_test : List ℚ) :
    ((∃ e, fitPipeline env X_train X_test y_train y_test = Except.error e) →
      scale_fit_predict632 env X_train X_test y_train y_test = (none, none)) ∧
    (∀ s t, fitPipeline env X_train X_test y_train y_test = Except.ok (s, t) →
      scale_fit_predict632 env X_train X_test y_train y_test = (some s, some t)) := by
  constructor
  · rintro ⟨e, he⟩
    simp [scale_fit_predict632, he]
  · intro s t h
    simp [scale_fit_predict632, h]

/-- C3 witness: the raising collaborator yields `(none, none)`; the
succeeding collaborator yields the two .632+ scores. -/
theorem scale_fit_predict632_catches_witness :
    scale_fit_predict632 envRaising () () [0, 1] [1, 0] = (none, none) ∧
    scale_fit_predict632 envSucceeding () () [0, 1] [1, 0] =
      (some (point632plus_score [0, 1] [0, 1] 1 1),
       some (point632plus_score [1, 0] [0, 1] 1 1)) :=
  ⟨(scale_fit_predict632_catches envRaising () () [0, 1] [1, 0]).1
      ⟨"convergence failure", rfl⟩,
   (scale_fit_predict632_catches envSucceeding () () [0, 1] [1, 0]).2
      (point632plus_score [0, 1] [0, 1] 1 1)
      (point632plus_score [1, 0] [0, 1] 1 1) rfl⟩

/-- C4: on a fully successful run, the result of `scale_fit_predict632` is the
pair of two calls of the same `point632plus_score` formula sharing the same
`train_score`/`test_score` inputs and differing only in which
`(y_true, y_pred)` pair feeds the no-information-rate computation. -/
theorem scale_fit_predict632_success_shape {Dat Fitted : Type}
    (env : FitEnv Dat Fitted) (X_train X_test : Dat) (y_train y_test : List ℚ)
    (X_train_std X_test_std : Dat) (fitted : Fitted)
    (y_train_pred y_test_pred : List ℚ) (train_score test_score : ℚ)
    (h1 : env.z_scores X_train X_test = Except.ok (X_train_std, X_test_std))
    (h2 : env.fit X_train_std y_train = Except.ok fitted)
    (h3 : env.predict fitted X_train_std = Except.ok y_train_pred)
    (h4 : env.score y_train y_train_pred = Except.ok train_score)
    (h5 : env.predict fitted X_test_std = Except.ok y_test_pred)
    (h6 : env.score y_test y_test_pred = Except.ok test_score) :
    scale_fit_predict632 env X_train X_test y_train y_test =
      (some (point632plus_score y_train y_train_pred train_score test_score),
       some (point632plus_score y_test y_test_pred train_score test_score)) := by
  simp [scale_fit_predict632, fitPipeline, h1, h2, h3, h4, h5, h6]

/-- C4 witness: `scale_fit_predict632_success_shape` applied to the concrete
succeeding collaborator. -/
theorem scale_fit_predict632_success_shape_witness :
    scale_fit_predict632 envSucceeding () () [0, 1] [1, 0] =
      (some (point632plus_score [0, 1] [0, 1] 1 1),
       some (point632plus_score [1, 0] [0, 1] 1 1)) :=
  scale_fit_predict632_success_shape envSucceeding () () [0, 1] [1, 0]
    () () () [0, 1] [0, 1] 1 1 rfl rfl rfl rfl rfl rfl

/-- C2: whenever the seeded generator draws lists of length `nrows` with
entries in `[0, nrows)` — which `rand_gen.choice(np.arange(nrows),
size=nrows, replace=True)` guarantees for every seed — each pair yielded by
`BootstrapOutOfBag.split` has a train index list of exact length `nrows`
with every element in `[0, nrows)`, and a test index set equal to
`{0..nrows-1}` minus the distinct train indices, hence disjoint from the
train indices. -/
theorem bootstrapOOBsplit_spec (nrows : ℕ) (hn : 1 ≤ nrows)
    (draws : List (List ℕ))
    (hdraws : ∀ t ∈ draws, t.length = nrows ∧ ∀ x ∈ t, x < nrows)
    (train_idx : List ℕ) (test_idx : Finset ℕ)
    (hmem : (train_idx, test_idx) ∈ bootstrapOOBsplit nrows draws) :
    train_idx.length = nrows ∧ (∀ x ∈ train_idx, x < nrows) ∧
    (∀ x, x ∈ test_idx ↔ x < nrows ∧ x ∉ train_idx) ∧
    ∀ x ∈ test_idx, x ∉ train_idx := by
  rcases List.mem_map.mp hmem with ⟨t, ht, heq⟩
  rcases Prod.mk.injEq _ _ _ _ ▸ heq with ⟨h1, h2⟩
  obtain ⟨hlen, hbound⟩ := hdraws t ht
  subst h1
  subst h2
  refine ⟨hlen, hbound, ?_, ?_⟩
  · intro x
    simp [Finset.mem_sdiff, Finset.mem_range, List.mem_toFinset]
  · intro x hx
    have := Finset.mem_sdiff.mp hx
    simpa [List.mem_toFinset] using this.2

/-- C2 witness: `bootstrapOOBsplit_spec` at `nrows = 2` with the single
bootstrap draw `[0, 0]`, whose out-of-bag set is `{1}`. -/
theorem bootstrapOOBsplit_spec_witness :
    ([0, 0] : List ℕ).length = 2 ∧ (∀ x ∈ ([0, 0] : List ℕ), x < 2) ∧
    (∀ x, x ∈ Finset.range 2 \ ([0, 0] : List ℕ).toFinset ↔
      x < 2 ∧ x ∉ ([0, 0] : List ℕ)) ∧
    ∀ x ∈ Finset.range 2 \ ([0, 0] : List ℕ).toFinset, x ∉ ([0, 0] : List ℕ) :=
  bootstrapOOBsplit_spec 2 (by decide) [[0, 0]] (by decide) [0, 0]
    (Finset.range 2 \ ([0, 0] : List ℕ).toFinset) (by decide)

/-- C1: `bbc_cv` does not return the mean over iterations of the selected
configuration's loss. On the matrix `[[2,3],[2,3]]`, whose configuration
column 0 has strictly lower loss than column 1 on every row, one iteration
with bootstrap draw `[0, 1]` returns `0` — the flattened argmin position
accumulated by the code — while the dominating column's true loss is `2`. -/
theorem bbc_cv_not_selected_loss_mean :
    (∀ row ∈ [[(2:ℚ), 3], [2, 3]], row.getD 0 0 < row.getD 1 0) ∧
    bbc_cv [[(2:ℚ), 3], [2, 3]] 1 none [[0, 1]] = 0 ∧
    colLoss [[(2:ℚ), 3], [2, 3]] 0 = 2 ∧
    bbc_cv [[(2:ℚ), 3], [2, 3]] 1 none [[0, 1]] ≠ colLoss [[(2:ℚ), 3], [2, 3]] 0 := by
  refine ⟨by decide, ?_, ?_, ?_⟩ <;>
    norm_num [bbc_cv, npArgmin, argminAux, colLoss]

/-- C8: the result of `bbc_cv` never depends on its `random_state` argument,
and it does depend on the state of the global generator: with the seed fixed
to `42`, two different global draw streams give different results,
so two runs with the same seed are not reproducible. -/
theorem bbc_cv_ignores_random_state :
    (∀ scores n_iter s1 s2 global_draws,
      bbc_cv scores n_iter s1 global_draws = bbc_cv scores n_iter s2 global_draws) ∧
    bbc_cv [[(0:ℚ), 1], [1, 0]] 1 (some 42) [[0, 0]] ≠
      bbc_cv [[(0:ℚ), 1], [1, 0]] 1 (some 42) [[1, 1]] :=
  ⟨fun _ _ _ _ _ => rfl, by norm_num [bbc_cv, npArgmin, argminAux]⟩

/-- C9: if a persisted case file exists for the key
`(random_state, experiment_id)`, `nested_cross_validation_smac` returns the
persisted record unchanged and executes zero folds; folds are executed only
when no such file exists, in which case the loop runs all `cv` folds. -/
theorem nested_cv_resume {Rec : Type} (store : PersistStore Rec) (p : String)
    (random_state : ℕ) (experiment_id : String) (cv : ℕ) (run_folds : ℕ → Rec) :
    (store.isfile (case_file_path (some p) random_state experiment_id) = true →
      nested_cross_validation_smac store (some p) random_state experiment_id cv run_folds =
        (store.read_prelim_result (case_file_path (some p) random_state experiment_id), 0)) ∧
    (∀ path_tmp_results,
      store.isfile (case_file_path path_tmp_results random_state experiment_id) = false →
      nested_cross_validation_smac store path_tmp_results random_state experiment_id cv run_folds =
        (run_folds cv, cv)) := by
  constructor
  · intro h
    simp [nested_cross_validation_smac, h]
  · intro path_tmp_results h
    simp [nested_cross_validation_smac, h]

/-- C9 witness: with the store holding record `99` for seed `7` and
experiment `x`, re-invoking under `tmp` reloads `(99, 0)` with zero folds,
while a key with no persisted file runs all `5` folds. -/
theorem nested_cv_resume_witness :
    nested_cross_validation_smac storeSeven (some "tmp") 7 "x" 5 (fun c => c + 100) = (99, 0) ∧
    nested_cross_validation_smac storeSeven (some "elsewhere") 7 "x" 5 (fun c => c + 100) =
      (105, 5) :=
  ⟨(nested_cv_resume storeSeven "tmp" 7 "x" 5 (fun c => c + 100)).1 (by decide),
   (nested_cv_resume storeSeven "elsewhere" 7 "x" 5 (fun c => c + 100)).2
     (some "elsewhere") (by decide)⟩

/-- C10: `check_support` returns `None` on every 1-dimensional `ndarray`; in
general it returns a value exactly when the input has more than one
dimension or is not an `ndarray`. -/
theorem check_support_one_dim_none :
    (∀ n data, check_support (SupportInput.ndarray [n] data) = none) ∧
    (∀ s, check_support s ≠ none ↔ 1 < np_ndim s ∨ isNdarray s = false) := by
  constructor
  · intro n data
    simp [check_support, np_ndim]
  · intro s
    cases s with
    | ndarray shape d =>
      by_cases h : 1 < shape.length <;>
        simp [check_support, np_ndim, isNdarray, h]
    | pylist shape d =>
      by_cases h : 1 < shape.length <;>
        simp [check_support, np_ndim, isNdarray, h]

end Biorad
